import Mathlib

/-!
# TFTScreen.cpp: call-trace semantics of the sketch

The sketch owns one global driver object `tft` and two functions, `setup` and
`loop`.  Everything it does is a call on `tft` or on the Arduino core
(`delay`).  The embedding keeps the world as explicit state: the value the
attached controller answers to an identity query, and the log of calls issued
so far (oldest first).  Each driver member function is a state transformer that
appends its own call to the log; `readID` additionally returns the 16-bit
answer of the hardware.
-/

namespace TFTScreen

/-! ## Colour names (`#define`s, lines 12-19) -/

def BLACK : Nat := 0x0000
def BLUE : Nat := 0x001F
def RED : Nat := 0xF800
def GREEN : Nat := 0x07E0
def CYAN : Nat := 0x07FF
def MAGENTA : Nat := 0xF81F
def YELLOW : Nat := 0xFFE0
def WHITE : Nat := 0xFFFF

/-! ## The world seen by the sketch -/

/-- One call leaving the sketch: the member functions of `tft` that the source
uses, and the core function `delay`. -/
inductive Call where
  | readID
  | begin (ID : Nat)
  | setRotation (r : Nat)
  | fillScreen (color : Nat)
  | setCursor (x y : Int)
  | setTextColor (c : Nat)
  | setTextSize (s : Nat)
  | println (s : String)
  | delay (ms : Nat)
  deriving DecidableEq, Repr

/-- Calls on the display driver object `tft` (everything except `delay`). -/
def Call.isDriver : Call → Bool
  | .delay _ => false
  | _ => true

/-- The drawing calls: the six driver calls made by `loop`. -/
def Call.isDrawing : Call → Bool
  | .setRotation _ => true
  | .fillScreen _ => true
  | .setCursor _ _ => true
  | .setTextColor _ => true
  | .setTextSize _ => true
  | .println _ => true
  | _ => false

/-- Identity queries. -/
def Call.isReadID : Call → Bool
  | .readID => true
  | _ => false

/-- Begin calls. -/
def Call.isBegin : Call → Bool
  | .begin _ => true
  | _ => false

/-- State threaded through the sketch: what the controller reports when asked
for its identity, and the calls issued so far, oldest first. -/
structure World where
  hwID : Nat
  log : List Call
  deriving DecidableEq, Repr

/-- Record one call at the end of the log. -/
def emit (c : Call) (w : World) : World :=
  { w with log := w.log ++ [c] }

/-- The member `uint16_t readID()`: logs the query and returns the hardware
answer truncated to 16 bits. -/
def tft_readID (w : World) : Nat × World :=
  (w.hwID % 2 ^ 16, emit Call.readID w)

def tft_begin (ID : Nat) (w : World) : World := emit (Call.begin ID) w
def tft_setRotation (r : Nat) (w : World) : World := emit (Call.setRotation r) w
def tft_fillScreen (color : Nat) (w : World) : World := emit (Call.fillScreen color) w
def tft_setCursor (x y : Int) (w : World) : World := emit (Call.setCursor x y) w
def tft_setTextColor (c : Nat) (w : World) : World := emit (Call.setTextColor c) w
def tft_setTextSize (s : Nat) (w : World) : World := emit (Call.setTextSize s) w
def tft_println (s : String) (w : World) : World := emit (Call.println s) w
def delay (ms : Nat) (w : World) : World := emit (Call.delay ms) w

/-! ## The two functions of the sketch -/

/-- Embedding of `void setup(void)` (lines 22-27). -/
def setup (w : World) : World :=
  let q := tft_readID w
  let ID : Nat := q.1
  let ID : Nat := if ID == 0xD3D3 then 0x9481 else ID
  tft_begin ID q.2

/-- Embedding of `void loop(void)` (lines 29-39). -/
def loop (w : World) : World :=
  let w := tft_setRotation 0 w
  let w := tft_fillScreen BLACK w
  let w := tft_setCursor 0 0 w
  let w := tft_setTextColor WHITE w
  let w := tft_setTextSize 10 w
  let w := tft_println "HelloWorld yolo!" w
  delay 10000 w

/-! ## Observations on logs and runs -/

/-- World at power-up: the controller will answer `c`, nothing issued yet. -/
def boot (c : Nat) : World := { hwID := c, log := [] }

/-- The calls that `f` adds to the log of `w`. -/
def issued (f : World → World) (w : World) : List Call :=
  (f w).log.drop w.log.length

/-- Arguments of the begin calls in a log, in order. -/
def beginArgs : List Call → List Nat
  | [] => []
  | Call.begin ID :: cs => ID :: beginArgs cs
  | _ :: cs => beginArgs cs

/-- Sum of the arguments of the `delay` calls in a log. -/
def totalDelay : List Call → Nat
  | [] => 0
  | Call.delay ms :: cs => ms + totalDelay cs
  | _ :: cs => totalDelay cs

/-- The world after `n` consecutive executions of `loop`. -/
def cycles : Nat → World → World
  | 0, w => w
  | n + 1, w => cycles n (loop w)

/-- The world after `setup` and then `n` executions of `loop`, on hardware that
answers `c` to the identity query. -/
def run (c n : Nat) : World := cycles n (setup (boot c))

/-! ## The entry sequence -/

/-- Modelled from the spec: the entry sequence that calls `setup` and `loop`
(the `main` of the Arduino core) is not in the source.  Section 2: "Control
flow: Initialization → (Render iteration → Pause) repeated indefinitely, never
returning"; section 4.2: one state "RENDERING" with a self-transition only.
The phases of that control flow. -/
inductive Phase where
  | init
  | rendering
  deriving DecidableEq, Repr

/-- Modelled from the spec: configuration of the entry sequence (missing from
the source): the phase, the world, and the number of render cycles completed. -/
structure Machine where
  phase : Phase
  world : World
  done : Nat
  deriving DecidableEq, Repr

/-- Modelled from the spec: the entry sequence at power-up (missing from the
source), on hardware that answers `c` to the identity query. -/
def powerOn (c : Nat) : Machine := { phase := Phase.init, world := boot c, done := 0 }

/-- Modelled from the spec: one transition of the entry sequence (missing from
the source).  The first phase runs `setup` once and enters the render phase;
the render phase runs `loop` once and stays there.  `none` would mean that
control has left the sketch. -/
def step (m : Machine) : Option Machine :=
  match m.phase with
  | Phase.init => some { phase := Phase.rendering, world := setup m.world, done := 0 }
  | Phase.rendering => some { phase := Phase.rendering, world := loop m.world, done := m.done + 1 }

/-- Modelled from the spec: `k` transitions of the entry sequence (missing from
the source). -/
def stepN : Nat → Machine → Option Machine
  | 0, m => some m
  | k + 1, m => (step m).bind (stepN k)

/-! ## Basic lemmas -/

theorem emit_log (c : Call) (w : World) : (emit c w).log = w.log ++ [c] := rfl

theorem emit_hwID (c : Call) (w : World) : (emit c w).hwID = w.hwID := rfl

theorem setup_log (w : World) :
    (setup w).log = w.log ++
      [Call.readID, Call.begin (if w.hwID % 65536 = 0xD3D3 then 0x9481 else w.hwID % 65536)] := by
  simp [setup, tft_readID, tft_begin, emit]

theorem setup_hwID (w : World) : (setup w).hwID = w.hwID := rfl

theorem loop_log (w : World) :
    (loop w).log = w.log ++
      [Call.setRotation 0, Call.fillScreen 0x0000, Call.setCursor 0 0,
       Call.setTextColor 0xFFFF, Call.setTextSize 10, Call.println "HelloWorld yolo!",
       Call.delay 10000] := by
  simp [loop, tft_setRotation, tft_fillScreen, tft_setCursor, tft_setTextColor,
    tft_setTextSize, tft_println, delay, emit, BLACK, WHITE]

theorem loop_hwID (w : World) : (loop w).hwID = w.hwID := rfl

theorem issued_of_log (f : World → World) (w : World) (l : List Call)
    (h : (f w).log = w.log ++ l) : issued f w = l := by
  simp [issued, h]

theorem beginArgs_append (l m : List Call) :
    beginArgs (l ++ m) = beginArgs l ++ beginArgs m := by
  induction l with
  | nil => rfl
  | cons a l ih => cases a <;> simp [beginArgs, ih]

theorem totalDelay_append (l m : List Call) :
    totalDelay (l ++ m) = totalDelay l + totalDelay m := by
  induction l with
  | nil => simp [totalDelay]
  | cons a l ih => cases a <;> simp [totalDelay, ih, Nat.add_assoc]

theorem cycles_hwID (n : Nat) (w : World) : (cycles n w).hwID = w.hwID := by
  induction n generalizing w with
  | zero => rfl
  | succ n ih => simp [cycles, ih, loop_hwID]

theorem cycles_log (n : Nat) (w : World) :
    (cycles n w).log = w.log ++ (List.replicate n
      [Call.setRotation 0, Call.fillScreen 0x0000, Call.setCursor 0 0,
       Call.setTextColor 0xFFFF, Call.setTextSize 10, Call.println "HelloWorld yolo!",
       Call.delay 10000]).flatten := by
  induction n generalizing w with
  | zero => simp [cycles]
  | succ n ih => simp [cycles, ih, loop_log, List.replicate_succ]

theorem run_log (c n : Nat) :
    (run c n).log = Call.readID ::
      Call.begin (if c % 65536 = 0xD3D3 then 0x9481 else c % 65536) ::
      (List.replicate n
        [Call.setRotation 0, Call.fillScreen 0x0000, Call.setCursor 0 0,
         Call.setTextColor 0xFFFF, Call.setTextSize 10, Call.println "HelloWorld yolo!",
         Call.delay 10000]).flatten := by
  simp [run, cycles_log, setup_log, boot]

theorem frames_all (p : Call → Bool) (f : List Call) (hf : f.all p = true) (n : Nat) :
    (List.replicate n f).flatten.all p = true := by
  induction n with
  | zero => simp
  | succ n ih => simp [List.replicate_succ, List.all_append, hf, ih]

theorem frames_beginArgs (n : Nat) :
    beginArgs (List.replicate n
      [Call.setRotation 0, Call.fillScreen 0x0000, Call.setCursor 0 0,
       Call.setTextColor 0xFFFF, Call.setTextSize 10, Call.println "HelloWorld yolo!",
       Call.delay 10000]).flatten = [] := by
  induction n with
  | zero => rfl
  | succ n ih => simp [List.replicate_succ, beginArgs_append, ih, beginArgs]

theorem frames_totalDelay (n : Nat) :
    totalDelay (List.replicate n
      [Call.setRotation 0, Call.fillScreen 0x0000, Call.setCursor 0 0,
       Call.setTextColor 0xFFFF, Call.setTextSize 10, Call.println "HelloWorld yolo!",
       Call.delay 10000]).flatten = 10000 * n := by
  induction n with
  | zero => rfl
  | succ n ih =>
    simp only [List.replicate_succ, List.flatten_cons, totalDelay_append, ih]
    simp only [totalDelay]
    omega

theorem frames_filter_readID (n : Nat) :
    (List.replicate n
      [Call.setRotation 0, Call.fillScreen 0x0000, Call.setCursor 0 0,
       Call.setTextColor 0xFFFF, Call.setTextSize 10, Call.println "HelloWorld yolo!",
       Call.delay 10000]).flatten.filter Call.isReadID = [] := by
  induction n with
  | zero => rfl
  | succ n ih => simp [List.replicate_succ, List.filter_append, ih, Call.isReadID]

theorem stepN_rendering (k : Nat) (w : World) (d : Nat) :
    stepN k { phase := Phase.rendering, world := w, done := d } =
      some { phase := Phase.rendering, world := cycles k w, done := d + k } := by
  induction k generalizing w d with
  | zero => rfl
  | succ k ih =>
    simp only [stepN, step, Option.some_bind, ih, cycles]
    congr 2
    omega

theorem frames_drawing_length (n : Nat) :
    ((List.replicate n
      [Call.setRotation 0, Call.fillScreen 0x0000, Call.setCursor 0 0,
       Call.setTextColor 0xFFFF, Call.setTextSize 10, Call.println "HelloWorld yolo!",
       Call.delay 10000]).flatten.filter Call.isDrawing).length = 6 * n := by
  induction n with
  | zero => rfl
  | succ n ih =>
    simp only [List.replicate_succ, List.flatten_cons, List.filter_append, List.length_append, ih]
    simp [Call.isDrawing]
    omega

theorem resolved_lt (q : Nat) (hq : q < 65536) :
    (if q = 0xD3D3 then 0x9481 else q) < 65536 := by
  split <;> omega

theorem resolved_ne (q : Nat) : (if q = 0xD3D3 then 0x9481 else q) ≠ 0xD3D3 := by
  split <;> omega

theorem setup_boot_beginArgs (c : Nat) :
    beginArgs (setup (boot c)).log = [(if c % 65536 = 0xD3D3 then 0x9481 else c % 65536)] := by
  rw [setup_log]
  rfl

/-! ## The claims -/

/-- C1: for every 16-bit identity code `c` answered to `readID`, the code that
`setup` passes to `begin` is `0x9481` when `c = 0xD3D3` and `c` itself
otherwise; `0xD3D3` is the only queried code that `setup` alters. -/
theorem C1_setup_resolves_identity (c : Nat) (hc : c < 65536) :
    beginArgs (setup (boot c)).log = [if c = 0xD3D3 then 0x9481 else c] ∧
    (beginArgs (setup (boot c)).log ≠ [c] ↔ c = 0xD3D3) := by
  have hm : c % 65536 = c := Nat.mod_eq_of_lt hc
  rw [setup_boot_beginArgs, hm]
  refine ⟨rfl, ?_⟩
  by_cases h : c = 0xD3D3
  · subst h; decide
  · simp [h]

/-- Witness for C1 at the sentinel code `0xD3D3`. -/
theorem C1_setup_resolves_identity_witness :
    (0xD3D3 : Nat) < 65536 ∧
    (beginArgs (setup (boot 0xD3D3)).log = [if (0xD3D3 : Nat) = 0xD3D3 then 0x9481 else 0xD3D3] ∧
     (beginArgs (setup (boot 0xD3D3)).log ≠ [0xD3D3] ↔ (0xD3D3 : Nat) = 0xD3D3)) :=
  ⟨by decide, C1_setup_resolves_identity 0xD3D3 (by decide)⟩

/-- C2: whatever the controller answers, the calls issued by `setup` are
appended to the log and are exactly the `readID` query followed by one `begin`
call whose single argument is the resolved identity; there is exactly one begin
call among them and it comes after the query. -/
theorem C2_setup_one_begin_after_readID (w : World) :
    (setup w).log = w.log ++ issued setup w ∧
    issued setup w = [Call.readID, Call.begin (if w.hwID % 65536 = 0xD3D3 then 0x9481 else w.hwID % 65536)] ∧
    (issued setup w).filter Call.isBegin = [Call.begin (if w.hwID % 65536 = 0xD3D3 then 0x9481 else w.hwID % 65536)] ∧
    beginArgs (issued setup w) = [(if w.hwID % 65536 = 0xD3D3 then 0x9481 else w.hwID % 65536)] := by
  have h := issued_of_log setup w _ (setup_log w)
  rw [h]
  exact ⟨setup_log w, rfl, rfl, rfl⟩

/-- C3: one execution of `loop` appends to the log, and the driver calls it
issues are exactly `setRotation(0)`, `fillScreen(0x0000)`, `setCursor(0, 0)`,
`setTextColor(0xFFFF)`, `setTextSize(10)`, `println("HelloWorld yolo!")`, in
this order, and no other driver call. -/
theorem C3_loop_driver_calls (w : World) :
    (loop w).log = w.log ++ issued loop w ∧
    (issued loop w).filter Call.isDriver =
      [Call.setRotation 0, Call.fillScreen 0x0000, Call.setCursor 0 0,
       Call.setTextColor 0xFFFF, Call.setTextSize 10, Call.println "HelloWorld yolo!"] := by
  have h := issued_of_log loop w _ (loop_log w)
  rw [h]
  exact ⟨loop_log w, rfl⟩

/-- C4: every execution of `loop` ends with exactly one pause, `delay(10000)`,
after the `println` call; two consecutive executions show the pause standing
before the driver calls of the next cycle; after `n` cycles the total requested
pause has grown by `10000 * n`, and a run of `setup` and `n` cycles has
requested `10000 * n` milliseconds in total. -/
theorem C4_loop_pause (w : World) (c n : Nat) :
    issued loop w =
      [Call.setRotation 0, Call.fillScreen 0x0000, Call.setCursor 0 0,
       Call.setTextColor 0xFFFF, Call.setTextSize 10, Call.println "HelloWorld yolo!",
       Call.delay 10000] ∧
    (issued loop w).filter (fun x => !x.isDriver) = [Call.delay 10000] ∧
    issued (fun v => loop (loop v)) w =
      [Call.setRotation 0, Call.fillScreen 0x0000, Call.setCursor 0 0,
       Call.setTextColor 0xFFFF, Call.setTextSize 10, Call.println "HelloWorld yolo!",
       Call.delay 10000] ++
      [Call.setRotation 0, Call.fillScreen 0x0000, Call.setCursor 0 0,
       Call.setTextColor 0xFFFF, Call.setTextSize 10, Call.println "HelloWorld yolo!",
       Call.delay 10000] ∧
    totalDelay (cycles n w).log = totalDelay w.log + 10000 * n ∧
    totalDelay (run c n).log = 10000 * n := by
  have h := issued_of_log loop w _ (loop_log w)
  rw [h]
  refine ⟨rfl, rfl, ?_, ?_, ?_⟩
  · apply issued_of_log
    rw [loop_log, loop_log, List.append_assoc]
  · rw [cycles_log, totalDelay_append, frames_totalDelay]
  · rw [run_log]
    simp only [totalDelay]
    exact frames_totalDelay n

/-- C5: in a run of `setup` followed by `n` executions of `loop`, the identity
is queried exactly once and exactly one `begin` call is made, with the resolved
identity; the log is the query, then that `begin`, then calls none of which is a
query or a `begin` and `6 * n` of which are drawing calls, so `begin` precedes
every drawing call; and no execution of `loop` issues `readID` or `begin`, or
changes what the controller reports or the begin calls made so far. -/
theorem C5_identity_resolved_once (c n : Nat) :
    (run c n).log.filter Call.isReadID = [Call.readID] ∧
    beginArgs (run c n).log = [(if c % 65536 = 0xD3D3 then 0x9481 else c % 65536)] ∧
    (∃ post : List Call,
      (run c n).log = Call.readID :: Call.begin (if c % 65536 = 0xD3D3 then 0x9481 else c % 65536) :: post ∧
      post.all (fun x => !x.isReadID && !x.isBegin) = true ∧
      (post.filter Call.isDrawing).length = 6 * n) ∧
    (∀ w : World,
      (issued loop w).all (fun x => !x.isReadID && !x.isBegin) = true ∧
      (loop w).hwID = w.hwID ∧
      beginArgs (loop w).log = beginArgs w.log) := by
  refine ⟨?_, ?_, ⟨_, run_log c n, ?_, frames_drawing_length n⟩, ?_⟩
  · rw [run_log]
    simp only [List.filter_cons, Call.isReadID, frames_filter_readID]
    rfl
  · rw [run_log]
    simp only [beginArgs]
    rw [frames_beginArgs]
  · apply frames_all
    rfl
  · intro w
    have h := issued_of_log loop w _ (loop_log w)
    rw [h]
    refine ⟨rfl, rfl, ?_⟩
    rw [loop_log, beginArgs_append]
    simp [beginArgs]

/-- C6: the eight colour names have exactly the values `BLACK = 0x0000`,
`BLUE = 0x001F`, `RED = 0xF800`, `GREEN = 0x07E0`, `CYAN = 0x07FF`,
`MAGENTA = 0xF81F`, `YELLOW = 0xFFE0`, `WHITE = 0xFFFF`, and each fits in 16
bits. -/
theorem C6_colour_values :
    (BLACK = 0x0000 ∧ BLUE = 0x001F ∧ RED = 0xF800 ∧ GREEN = 0x07E0 ∧
     CYAN = 0x07FF ∧ MAGENTA = 0xF81F ∧ YELLOW = 0xFFE0 ∧ WHITE = 0xFFFF) ∧
    (BLACK < 2 ^ 16 ∧ BLUE < 2 ^ 16 ∧ RED < 2 ^ 16 ∧ GREEN < 2 ^ 16 ∧
     CYAN < 2 ^ 16 ∧ MAGENTA < 2 ^ 16 ∧ YELLOW < 2 ^ 16 ∧ WHITE < 2 ^ 16) := by
  decide

/-- C7: on the entry sequence, for every `n` the configuration after `setup`
and `n` render cycles is reached and is again in the render phase, so no number
of transitions makes control leave the sketch; the log then is the two calls of
`setup` followed by `n` copies of one and the same seven-call sequence, and the
next cycle issues that same sequence, whatever `n` and the queried code are. -/
theorem C7_render_loop_unbounded (c n : Nat) :
    stepN (n + 1) (powerOn c) =
      some { phase := Phase.rendering, world := run c n, done := n } ∧
    (∀ k : Nat, (stepN k (powerOn c)).isSome = true) ∧
    (run c n).log = Call.readID :: Call.begin (if c % 65536 = 0xD3D3 then 0x9481 else c % 65536) ::
      (List.replicate n
      [Call.setRotation 0, Call.fillScreen 0x0000, Call.setCursor 0 0,
       Call.setTextColor 0xFFFF, Call.setTextSize 10, Call.println "HelloWorld yolo!",
       Call.delay 10000]).flatten ∧
    issued loop (run c n) =
      [Call.setRotation 0, Call.fillScreen 0x0000, Call.setCursor 0 0,
       Call.setTextColor 0xFFFF, Call.setTextSize 10, Call.println "HelloWorld yolo!",
       Call.delay 10000] := by
  have hs : ∀ k : Nat, stepN (k + 1) (powerOn c) =
      some { phase := Phase.rendering, world := run c k, done := k } := by
    intro k
    simp only [stepN, step, powerOn, Option.some_bind, stepN_rendering, run, Nat.zero_add]
  refine ⟨hs n, ?_, run_log c n, issued_of_log loop _ _ (loop_log _)⟩
  intro k
  cases k with
  | zero => rfl
  | succ k => rw [hs k]; rfl

/-- C8: the identity that `setup` passes to `begin` is never the sentinel
`0xD3D3`; resolution is idempotent: a controller that answers the resolved
identity gets that same identity passed to `begin`; and resolution is not
injective: the distinct codes `0xD3D3` and `0x9481` both lead to `0x9481`. -/
theorem C8_resolution_idempotent_not_injective (c : Nat) :
    (∃ r : Nat, beginArgs (setup (boot c)).log = [r] ∧ r ≠ 0xD3D3 ∧
      beginArgs (setup (boot r)).log = [r]) ∧
    (beginArgs (setup (boot 0xD3D3)).log = [0x9481] ∧
     beginArgs (setup (boot 0x9481)).log = [0x9481] ∧
     (0xD3D3 : Nat) ≠ 0x9481) := by
  refine ⟨⟨_, setup_boot_beginArgs c, resolved_ne _, ?_⟩, by decide, by decide, by decide⟩
  have hlt : (if c % 65536 = 0xD3D3 then 0x9481 else c % 65536) < 65536 :=
    resolved_lt _ (Nat.mod_lt _ (by decide))
  rw [setup_boot_beginArgs, Nat.mod_eq_of_lt hlt]
  have hne := resolved_ne (c % 65536)
  simp only [hne, if_false]

/-- C9: the colour names follow the RGB565 layout: `RED`, `GREEN` and `BLUE`
are the masks of the top 5, middle 6 and low 5 bits of a 16-bit word, pairwise
disjoint under bitwise AND, with bitwise OR equal to `WHITE = 0xFFFF`;
`CYAN = GREEN | BLUE`, `MAGENTA = RED | BLUE`, `YELLOW = RED | GREEN`, and
`BLACK` is 0. -/
theorem C9_colours_rgb565 :
    (RED = (2 ^ 5 - 1) <<< 11 ∧ GREEN = (2 ^ 6 - 1) <<< 5 ∧ BLUE = 2 ^ 5 - 1) ∧
    (∀ i : Fin 16, RED.testBit i.val = decide (11 ≤ i.val) ∧
      GREEN.testBit i.val = decide (5 ≤ i.val ∧ i.val < 11) ∧
      BLUE.testBit i.val = decide (i.val < 5)) ∧
    (RED &&& GREEN = 0 ∧ RED &&& BLUE = 0 ∧ GREEN &&& BLUE = 0) ∧
    (RED ||| GREEN ||| BLUE = WHITE ∧ WHITE = 0xFFFF) ∧
    (CYAN = GREEN ||| BLUE ∧ MAGENTA = RED ||| BLUE ∧ YELLOW = RED ||| GREEN) ∧
    BLACK = 0 := by
  decide

end TFTScreen
